import Mathlib

/-!
Shallow embedding of `src/bot.py`, a Telegram storefront bot, for checking
the natural-language specification against the code.

Modelling conventions:

* Python dicts holding product data (`{"id": ..., "name": ..., "price": ...}`)
  become the structure `Product`.  The catalog `products` is an
  insertion-ordered association list, matching Python dict iteration order.
* Per-user `context.user_data` dicts become the structure `Session`.  In
  python-telegram-bot, `context.user_data` is keyed by the id of the user who
  generated the update (the one who sent the command or pressed the button).
* Python *list objects* are mutable and aliased by reference.  The code stores
  `context.user_data['cart']` (a list object) and, at checkout, puts the very
  same object into `current_order['cart']`.  To be faithful to this aliasing
  we model list objects through an explicit heap: `BotState.heap` is the store
  of allocated list objects, and carts are `Nat` references into it.
  Assigning a fresh `[]` (as in `clear_cart`) allocates a new object;
  `append`/`pop` mutate the referenced object in place.
* `orders.json` (read by `load_orders`, rewritten by `save_order`) becomes
  `BotState.orders : List LedgerEntry`.  `json.dump` serialises the current
  contents of the aliased cart list, so a `LedgerEntry` holds a materialised
  `List Product`, not a reference.  Note the order dict built by the code has
  exactly the keys `user_id`, `user_name`, `cart`, `total`, `status` - there
  is no `delivery_address` key anywhere in a saved order.
* Outbound Telegram messages are abstracted into the inductive `Reply`:
  one constructor per distinct message/answer the modelled handlers can send.
  `Reply.outOfRangeError` and `Reply.invalidInput` are part of the *spec's*
  error vocabulary and appear in the type so that spec claims about error
  reporting can be stated; the code itself never produces them.
* An unhandled Python exception (KeyError on an unknown product id, TypeError
  on subscripting `None`) is modelled as an `Option` result being `none` at
  the point where the exception would be raised; state mutations that
  happened before the raising line are kept, as in Python.
-/

/-- Python product dict `{"id": ..., "name": ..., "price": ...}`. -/
structure Product where
  id : String
  name : String
  price : Int
deriving Repr, DecidableEq

/-- The `products` global: an insertion-ordered dict from product id to product. -/
abbrev Catalog := List (String × Product)

/-- Python `products[k]` lookup (as an `Option`; `none` models `KeyError`). -/
def dictGet (c : Catalog) (k : String) : Option Product :=
  match c with
  | [] => none
  | (k2, v) :: rest => if k2 = k then some v else dictGet rest k

/-- Python `products[k] = v`: overwrite in place (keeping dict position) or append. -/
def dictSet (c : Catalog) (k : String) (v : Product) : Catalog :=
  match c with
  | [] => [(k, v)]
  | (k2, v2) :: rest => if k2 = k then (k2, v) :: rest else (k2, v2) :: dictSet rest k v

/-- Python `del products[k]`. -/
def dictDel (c : Catalog) (k : String) : Catalog :=
  match c with
  | [] => []
  | (k2, v2) :: rest => if k2 = k then rest else (k2, v2) :: dictDel rest k

/-- The heap of allocated Python list objects; a cart reference is an index into it. -/
abbrev ListHeap := List (List Product)

/-- Dereference a list object.  (A dangling reference reads as `[]`; the code
never creates one.) -/
def heapGet (h : ListHeap) (r : Nat) : List Product :=
  h.getD r []

/-- In-place mutation of the list object at reference `r`. -/
def heapSet (h : ListHeap) (r : Nat) (l : List Product) : ListHeap :=
  h.set r l

/-- The order dict built at checkout and held in `user_data['current_order']`.
Its `cart` field is a *reference* to the same list object as the session cart,
because the code assigns the list without copying.  There is no
`delivery_address` field: the code never adds one to the order. -/
structure Order where
  user_id : Int
  user_name : String
  cart : Nat
  total : Int
  status : String
deriving Repr, DecidableEq

/-- One element of the persisted `orders.json` array, as serialised by
`save_order` via `json.dump` (the cart contents are copied into the JSON text
at dump time). -/
structure LedgerEntry where
  user_id : Int
  user_name : String
  cart : List Product
  total : Int
  status : String
deriving Repr, DecidableEq

/-- A user's `context.user_data` dict.  `cart = none` models the `'cart'` key
being absent (checked by `if 'cart' not in context.user_data`).  For
`current_order` and `state` the code only ever uses `.get`, which treats an
absent key and a key set to `None` identically, so both are one `Option`. -/
structure Session where
  cart : Option Nat
  current_order : Option Order
  state : Option String
  delivery_address : Option String
deriving Repr, DecidableEq

/-- A fresh user's empty `user_data` dict. -/
def emptySession : Session :=
  { cart := none, current_order := none, state := none, delivery_address := none }

/-- Whole-program state: the list-object heap, all per-user sessions, the
`products` dict and the persisted `orders.json` contents. -/
structure BotState where
  heap : ListHeap
  sessions : Int → Session
  products : Catalog
  orders : List LedgerEntry

/-- Update one user's session (assignment into the per-user data mapping). -/
def setSession (f : Int → Session) (uid : Int) (v : Session) : Int → Session :=
  fun u => if u = uid then v else f u

/-- The contents of a user's cart as read by `context.user_data.get('cart', [])`. -/
def cartItems (s : BotState) (uid : Int) : List Product :=
  match (s.sessions uid).cart with
  | none => []
  | some r => heapGet s.heap r

/-- The item list of the user's current draft (dereferencing the aliased cart
object), `[]` when no draft exists.  Used to observe what
`current_order['cart']` contains. -/
def draftItems (s : BotState) (uid : Int) : List Product :=
  match (s.sessions uid).current_order with
  | none => []
  | some o => heapGet s.heap o.cart

/-- ASCII whitespace, for Python `str.strip()`.  (Python also strips some
unicode whitespace; no input in this development contains any.) -/
def pySpace (c : Char) : Bool :=
  c == ' ' || c == '\t' || c == '\n' || c == '\r'

/-- Python `s.strip()`: remove leading and trailing whitespace. -/
def pyStrip (s : String) : String :=
  ⟨((s.data.dropWhile pySpace).reverse.dropWhile pySpace).reverse⟩

/-- Python `s.lower()` (ASCII case mapping; the inputs here are ASCII). -/
def pyLower (s : String) : String :=
  ⟨s.data.map Char.toLower⟩

/-- Accumulate a decimal digit string into a number (`none` on a non-digit). -/
def digitsVal (cs : List Char) (acc : Nat) : Option Nat :=
  match cs with
  | [] => some acc
  | c :: rest => if c.isDigit then digitsVal rest (acc * 10 + (c.toNat - 48)) else none

/-- Python `int(arg)` on a command argument, as an `Option` (`none` models
`ValueError`): an optional minus sign followed by decimal digits.  Exotic
accepted forms (surrounding whitespace, a plus sign, underscores) are not
modelled; no claim depends on them. -/
def pyInt (arg : String) : Option Int :=
  match arg.data with
  | [] => none
  | '-' :: rest =>
      if rest = [] then none
      else (digitsVal rest 0).map (fun n => -(n : Int))
  | cs => (digitsVal cs 0).map (fun n => (n : Int))

/-- The state string `AWAITING_PAYMENT_CONFIRMATION`.  The code reuses this
single string both as the awaiting-address state (checked in `handle_message`)
and as the awaiting-payment-confirmation state (set in `pay_tinkoff`). -/
def AWAITING_PAYMENT_CONFIRMATION : String := "awaiting_payment_confirmation"

/-- Outbound messages/answers of the modelled handlers, one constructor per
distinct message.  `outOfRangeError` and `invalidInput` exist only to let the
spec's error taxonomy be stated; no handler below ever returns them. -/
inductive Reply where
  | silent
  | cartEmpty
  | orderSummary (total : Int)
  | addressSaved
  | addressEmptyError
  | addedItem (p : Product)
  | removedItem (p : Product)
  | noOrderData
  | paymentDetails (total : Int)
  | adminNotified (targetUid : Int)
  | permissionDenied
  | usageError
  | productAdded (name : String)
  | productRemoved (id : String)
  | productNotFound (id : String)
  | noOrders
  | ordersShown (entries : List LedgerEntry)
  | outOfRangeError
  | invalidInput
deriving Repr, DecidableEq

/-- The initial `products` dict of `bot.py`. -/
def initialProducts : Catalog :=
  [ ("apple",  { id := "apple",  name := "🍎 Яблоко",   price := 50 }),
    ("banana", { id := "banana", name := "🍌 Банан",    price := 70 }),
    ("orange", { id := "orange", name := "🍊 Апельсин", price := 80 }),
    ("bread",  { id := "bread",  name := "🍞 Хлеб",     price := 40 }) ]

/-- Process start state: no list objects allocated, every session fresh,
default catalog, empty `orders.json`. -/
def initState : BotState :=
  { heap := [], sessions := fun _ => emptySession,
    products := initialProducts, orders := [] }

/-- Python `str(user_id) == ADMIN_ID` (`ADMIN_ID` may be unset, i.e. `none`). -/
def is_admin (adminId : Option String) (uid : Int) : Bool :=
  some (toString uid) == adminId

/-- Handler `handle_message`: when the session state is
`AWAITING_PAYMENT_CONFIRMATION`, a non-empty stripped text is stored as
`delivery_address` and the state is reset to `None`; empty/whitespace text is
rejected with an error message and nothing changes.  In any other state the
handler does nothing. -/
def handle_message (s : BotState) (uid : Int) (text : String) : BotState × Reply :=
  let sess := s.sessions uid
  if sess.state = some AWAITING_PAYMENT_CONFIRMATION then
    let address := pyStrip text
    if address ≠ "" then
      let sess1 := { sess with delivery_address := some address, state := none }
      ({ s with sessions := setSession s.sessions uid sess1 }, Reply.addressSaved)
    else
      (s, Reply.addressEmptyError)
  else
    (s, Reply.silent)

/-- Callback handler `add_to_cart` for data `add_<pid>`.  The code first
materialises the `'cart'` key (`if 'cart' not in context.user_data`) and then
appends `products[product_id]` *by reference* to the cart list object.  An
unknown product id raises `KeyError` (result `none`) after the key
materialisation already happened. -/
def add_to_cart (s : BotState) (uid : Int) (pid : String) : BotState × Option Product :=
  let sess := s.sessions uid
  let heap1 := match sess.cart with
    | some _ => s.heap
    | none => s.heap ++ [[]]
  let r := match sess.cart with
    | some r0 => r0
    | none => s.heap.length
  let sess1 := { sess with cart := some r }
  let s1 : BotState :=
    { s with heap := heap1, sessions := setSession s.sessions uid sess1 }
  match dictGet s.products pid with
  | none => (s1, none)
  | some p =>
      ({ s1 with heap := heapSet s1.heap r (heapGet s1.heap r ++ [p]) }, some p)

/-- Callback handler `remove_from_cart` for data `remove_<index>`.  When
`0 <= index < len(cart)` the element is popped in place and an answer names
it; otherwise the handler falls through silently (no error message) and the
cart is untouched. -/
def remove_from_cart (s : BotState) (uid : Int) (index : Int) : BotState × Reply :=
  let sess := s.sessions uid
  match sess.cart with
  | none => (s, Reply.silent)
  | some r =>
    let cart := heapGet s.heap r
    if 0 ≤ index ∧ index < (cart.length : Int) then
      let i := index.toNat
      let removed := cart.getD i { id := "", name := "", price := 0 }
      ({ s with heap := heapSet s.heap r (cart.eraseIdx i) }, Reply.removedItem removed)
    else
      (s, Reply.silent)

/-- Callback handler `clear_cart`: assigns a *new* empty list object to
`user_data['cart']` (it does not mutate the old object, so a draft aliasing
the old object keeps its contents). -/
def clear_cart (s : BotState) (uid : Int) : BotState :=
  let sess := s.sessions uid
  let sess1 := { sess with cart := some s.heap.length }
  { s with heap := s.heap ++ [[]], sessions := setSession s.sessions uid sess1 }

/-- Callback handler `checkout_order`: on an empty (or absent) cart it reports
"cart empty" and changes nothing; otherwise it builds the order dict
`{'cart': cart, 'total': total, 'user_id': ..., 'user_name': ..., 'status': 'pending'}`
where `'cart'` is the *same list object* as the session cart, and stores it in
`user_data['current_order']`. -/
def checkout_order (s : BotState) (uid : Int) (uname : String) : BotState × Reply :=
  let sess := s.sessions uid
  match sess.cart with
  | none => (s, Reply.cartEmpty)
  | some r =>
    let cart := heapGet s.heap r
    if cart.isEmpty then
      (s, Reply.cartEmpty)
    else
      let total := (cart.map (·.price)).sum
      let order : Order :=
        { cart := r, total := total, user_id := uid, user_name := uname, status := "pending" }
      let sess1 := { sess with current_order := some order }
      ({ s with sessions := setSession s.sessions uid sess1 }, Reply.orderSummary total)

/-- Command handler `/checkout`: same state logic as `checkout_order` (the
order dict is written with the same keys and values, only the surrounding
message plumbing differs). -/
def checkout (s : BotState) (uid : Int) (uname : String) : BotState × Reply :=
  let sess := s.sessions uid
  match sess.cart with
  | none => (s, Reply.cartEmpty)
  | some r =>
    let cart := heapGet s.heap r
    if cart.isEmpty then
      (s, Reply.cartEmpty)
    else
      let total := (cart.map (·.price)).sum
      let order : Order :=
        { cart := r, total := total, user_id := uid, user_name := uname, status := "pending" }
      let sess1 := { sess with current_order := some order }
      ({ s with sessions := setSession s.sessions uid sess1 }, Reply.orderSummary total)

/-- Callback handler `pay_tinkoff`: with no current order it reports
"no order data"; otherwise it shows the payment details with the draft's
stored total and sets the session state to `AWAITING_PAYMENT_CONFIRMATION`. -/
def pay_tinkoff (s : BotState) (uid : Int) : BotState × Reply :=
  let sess := s.sessions uid
  match sess.current_order with
  | none => (s, Reply.noOrderData)
  | some o =>
    let sess1 := { sess with state := some AWAITING_PAYMENT_CONFIRMATION }
    ({ s with sessions := setSession s.sessions uid sess1 }, Reply.paymentDetails o.total)

/-- Callback handler `confirm_payment` ("I paid"): with no current order it
reports an error; otherwise it notifies the admin chat with the order details
and an `approve_<uid>` button keyed by the *pressing* user's id.  No session
state changes. -/
def confirm_payment (s : BotState) (uid : Int) : BotState × Reply :=
  match (s.sessions uid).current_order with
  | none => (s, Reply.noOrderData)
  | some _ => (s, Reply.adminNotified uid)

/-- `save_order`: `load_orders()` then append then rewrite the whole file.
`json.dump` copies the aliased cart list's current contents into the file. -/
def save_order (orders : List LedgerEntry) (entry : LedgerEntry) : List LedgerEntry :=
  orders ++ [entry]

/-- What the receipt message of `approve_payment` is built from.  `buyer` is
the chat fetched for the *target* user id; items and total come from the order
dict that was read out of the presser's session. -/
structure Receipt where
  buyer : Int
  items : List Product
  total : Int
deriving Repr, DecidableEq

/-- Callback handler `approve_payment` for data `approve_<target>`.
`presser` is the user who pressed the button (whose `context.user_data` the
handler reads); `target` is `int(query.data.split('_')[1])`, used only for
`get_chat` and outbound messages.  Faithful to source order: read
`user_data.get('current_order')` (the **presser's** session), if present set
its status to `'paid'` and `save_order` it (serialising the aliased cart
list), then assign a fresh `[]` to the presser's cart, clear the presser's
`current_order` and `state`, and finally build the receipt from the local
`order` variable - which subscripts `None` (TypeError, result `none`) when
there was no order.  There is **no** admin check in this handler.
Returns (new state, entry appended if any, receipt built or `none` = raise). -/
def approve_payment (s : BotState) (presser : Int) (target : Int) :
    BotState × Option LedgerEntry × Option Receipt :=
  let sess := s.sessions presser
  let order := sess.current_order
  let saved : Option LedgerEntry := order.map fun o =>
    { user_id := o.user_id, user_name := o.user_name,
      cart := heapGet s.heap o.cart, total := o.total, status := "paid" }
  let newRef := s.heap.length
  let sess1 : Session :=
    { cart := some newRef, current_order := none, state := none,
      delivery_address := sess.delivery_address }
  let s1 : BotState :=
    { heap := s.heap ++ [[]],
      sessions := setSession s.sessions presser sess1,
      products := s.products,
      orders := match saved with
        | none => s.orders
        | some e => save_order s.orders e }
  let receipt : Option Receipt := order.map fun o =>
    { buyer := target, items := heapGet s.heap o.cart, total := o.total }
  (s1, saved, receipt)

/-- Command handler `/add_product <name> <price>`, wrapped in `admin_only`:
a non-admin caller is rejected before anything runs.  For the admin, missing
arguments (IndexError) or a non-integer price (ValueError) yield the usage
message and no change; otherwise `products[name.lower()]` is assigned
unconditionally - the price's sign is never checked. -/
def add_product_cmd (adminId : Option String) (s : BotState) (uid : Int)
    (args : List String) : BotState × Reply :=
  if ¬ is_admin adminId uid then (s, Reply.permissionDenied)
  else
    match args with
    | name :: priceArg :: _ =>
      match pyInt priceArg with
      | some price =>
        let product_id := pyLower name
        let p : Product := { id := product_id, name := name, price := price }
        ({ s with products := dictSet s.products product_id p }, Reply.productAdded name)
      | none => (s, Reply.usageError)
    | _ => (s, Reply.usageError)

/-- Command handler `/remove_product <id>`, wrapped in `admin_only`. -/
def remove_product_cmd (adminId : Option String) (s : BotState) (uid : Int)
    (args : List String) : BotState × Reply :=
  if ¬ is_admin adminId uid then (s, Reply.permissionDenied)
  else
    match args with
    | a :: _ =>
      let product_id := pyLower a
      if (dictGet s.products product_id).isSome then
        ({ s with products := dictDel s.products product_id }, Reply.productRemoved product_id)
      else
        (s, Reply.productNotFound product_id)
    | [] => (s, Reply.usageError)

/-- Command handler `/orders`, wrapped in `admin_only`: shows the last five
ledger entries (`orders_list[-5:]`); mutates nothing. -/
def list_orders (adminId : Option String) (s : BotState) (uid : Int) : BotState × Reply :=
  if ¬ is_admin adminId uid then (s, Reply.permissionDenied)
  else if s.orders.isEmpty then (s, Reply.noOrders)
  else (s, Reply.ordersShown (s.orders.drop (s.orders.length - 5)))

/-! Concrete states used to exercise the handlers. -/

/-- The catalog's apple product. -/
def appleP : Product := { id := "apple", name := "🍎 Яблоко", price := 50 }

/-- The catalog's banana product. -/
def bananaP : Product := { id := "banana", name := "🍌 Банан", price := 70 }

/-- A pending draft held by user 42, referencing list object 0. -/
def draft42 : Order :=
  { cart := 0, total := 50, user_id := 42, user_name := "Customer", status := "pending" }

/-- User 42's session: cart and draft present, address stored, awaiting
confirmation. -/
def sess42 : Session :=
  { cart := some 0, current_order := some draft42,
    state := some AWAITING_PAYMENT_CONFIRMATION, delivery_address := some "Main St 1" }

/-- A state where user 42 has a fully prepared order and every other user
(including the admin, user 1) has a fresh session. -/
def c1State : BotState :=
  { heap := [[appleP]],
    sessions := fun u => if u = 42 then sess42 else emptySession,
    products := initialProducts,
    orders := [] }

/-- The state reached from process start by user 7 adding an apple and a
banana, checking out, opening payment, sending the address "Main St 1" and
pressing "I paid" - the spec's happy-path scenario up to the approval step. -/
def happyS6 : BotState :=
  let s1 := (add_to_cart initState 7 "apple").1
  let s2 := (add_to_cart s1 7 "banana").1
  let s3 := (checkout_order s2 7 "Customer").1
  let s4 := (pay_tinkoff s3 7).1
  let s5 := (handle_message s4 7 "Main St 1").1
  (confirm_payment s5 7).1

/-- A pending draft held by non-admin user 99, referencing list object 0. -/
def draft99 : Order :=
  { cart := 0, total := 50, user_id := 99, user_name := "Mallory", status := "pending" }

/-- A state where non-admin user 99 has a prepared order awaiting approval;
the configured admin is user 1. -/
def c4State : BotState :=
  { heap := [[appleP]],
    sessions := fun u => if u = 99 then
        { cart := some 0, current_order := some draft99,
          state := some AWAITING_PAYMENT_CONFIRMATION, delivery_address := none }
      else emptySession,
    products := initialProducts,
    orders := [] }

/-- A state where user 7 has a two-item cart and nothing else going on. -/
def c7State : BotState :=
  { heap := [[appleP, bananaP]],
    sessions := fun u => if u = 7 then
        { cart := some 0, current_order := none, state := none, delivery_address := none }
      else emptySession,
    products := initialProducts,
    orders := [] }

/-! Helper lemmas about the store primitives. -/

theorem setSession_self (f : Int → Session) (uid : Int) (v : Session) :
    setSession f uid v uid = v := by
  simp [setSession]

theorem setSession_other (f : Int → Session) (uid u : Int) (v : Session) (h : u ≠ uid) :
    setSession f uid v u = f u := by
  simp [setSession, h]

theorem heapGet_heapSet_self (h : ListHeap) (r : Nat) (l : List Product)
    (hr : r < h.length) : heapGet (heapSet h r l) r = l := by
  simp [heapGet, heapSet, List.getD, List.getElem?_set_self, hr]

theorem heapGet_eq_nil_of_le (h : ListHeap) (r : Nat) (hr : ¬ r < h.length) :
    heapGet h r = [] := by
  simp [heapGet, List.getD]
  rw [List.getElem?_eq_none (by omega)]
  rfl

theorem heapGet_append_singleton (h : ListHeap) (l : List Product) :
    heapGet (h ++ [l]) h.length = l := by
  simp [heapGet, List.getD]

theorem lt_length_of_heapGet_ne_nil (h : ListHeap) (r : Nat)
    (hne : heapGet h r ≠ []) : r < h.length := by
  by_contra hlt
  exact hne (heapGet_eq_nil_of_le h r hlt)

theorem checkout_order_of_empty (s : BotState) (uid : Int) (uname : String)
    (h : cartItems s uid = []) : checkout_order s uid uname = (s, Reply.cartEmpty) := by
  unfold cartItems at h
  unfold checkout_order
  rcases hc : (s.sessions uid).cart with _ | r
  · simp [hc]
  · rw [hc] at h
    simp at h
    simp [hc, h]

theorem checkout_order_of_ne_nil (s : BotState) (uid : Int) (uname : String)
    (h : cartItems s uid ≠ []) :
    ∃ r : Nat, (s.sessions uid).cart = some r ∧
      heapGet s.heap r = cartItems s uid ∧
      (checkout_order s uid uname).1.heap = s.heap ∧
      (checkout_order s uid uname).1.products = s.products ∧
      (checkout_order s uid uname).1.orders = s.orders ∧
      (∀ u, u ≠ uid → (checkout_order s uid uname).1.sessions u = s.sessions u) ∧
      ((checkout_order s uid uname).1.sessions uid).cart = some r ∧
      ((checkout_order s uid uname).1.sessions uid).state = (s.sessions uid).state ∧
      ((checkout_order s uid uname).1.sessions uid).delivery_address
        = (s.sessions uid).delivery_address ∧
      ((checkout_order s uid uname).1.sessions uid).current_order
        = some (Order.mk uid uname r (((cartItems s uid).map (fun p => p.price)).sum) "pending") ∧
      (checkout_order s uid uname).2
        = Reply.orderSummary (((cartItems s uid).map (fun p => p.price)).sum) := by
  unfold cartItems at h ⊢
  rcases hc : (s.sessions uid).cart with _ | r
  · rw [hc] at h; exact absurd rfl h
  · rw [hc] at h
    simp at h
    refine ⟨r, rfl, ?_⟩
    unfold checkout_order
    simp [hc, h, setSession]
    intro u hu
    simp [hu]

theorem checkout_of_empty (s : BotState) (uid : Int) (uname : String)
    (h : cartItems s uid = []) : checkout s uid uname = (s, Reply.cartEmpty) := by
  unfold cartItems at h
  unfold checkout
  rcases hc : (s.sessions uid).cart with _ | r
  · simp [hc]
  · rw [hc] at h
    simp at h
    simp [hc, h]

theorem checkout_of_ne_nil (s : BotState) (uid : Int) (uname : String)
    (h : cartItems s uid ≠ []) :
    ∃ r : Nat, (s.sessions uid).cart = some r ∧
      ((checkout s uid uname).1.sessions uid).current_order
        = some (Order.mk uid uname r (((cartItems s uid).map (fun p => p.price)).sum) "pending") := by
  unfold cartItems at h ⊢
  rcases hc : (s.sessions uid).cart with _ | r
  · rw [hc] at h; exact absurd rfl h
  · rw [hc] at h
    simp at h
    refine ⟨r, rfl, ?_⟩
    unfold checkout
    simp [hc, h, setSession]

theorem add_product_cmd_frame (adminId : Option String) (s : BotState) (uid : Int)
    (args : List String) :
    ((add_product_cmd adminId s uid args).1).sessions = s.sessions ∧
    ((add_product_cmd adminId s uid args).1).heap = s.heap ∧
    ((add_product_cmd adminId s uid args).1).orders = s.orders := by
  unfold add_product_cmd
  by_cases ha : is_admin adminId uid
  · rcases args with _ | ⟨n, _ | ⟨p, rest⟩⟩
    · simp [ha]
    · simp [ha]
    · rcases hp : pyInt p with _ | v
      · simp [ha, hp]
      · simp [ha, hp]
  · simp [ha]

/-! Claim theorems. -/

/-- C1.  The claim says `approve` for a target user id must transition that
target user's draft to paid, append one ledger entry, and leave every other
session (the admin's included) unchanged.  The code does the opposite: with
admin 1 pressing `approve_42` on `c1State` (user 42 has a prepared pending
order, the admin's own session is fresh), nothing is appended to the ledger,
user 42's session - the one selected by the trigger - is left exactly as it
was (draft still pending), and it is the *admin's own* session that gets read
and cleared (a fresh empty cart list is assigned to it), because the handler
reads `context.user_data` of the button presser instead of looking up the
session of the user id encoded in the trigger. -/
theorem approve_payment_reads_pressers_session_not_target :
    (approve_payment c1State 1 42).1.orders = [] ∧
    (approve_payment c1State 1 42).2.1 = none ∧
    (approve_payment c1State 1 42).1.sessions 42 = sess42 ∧
    ((approve_payment c1State 1 42).1.sessions 1).cart = some 1 ∧
    heapGet (approve_payment c1State 1 42).1.heap 1 = [] ∧
    ((approve_payment c1State 1 42).1.sessions 1).current_order = none ∧
    ((approve_payment c1State 1 42).1.sessions 1).state = none := by
  decide

/-- C2.  Replay of the spec's happy-path scenario: from the start state,
user 7 adds apple (50) and banana (70), checks out (total 120), opens
payment, sends address "Main St 1", presses "I paid" (`happyS6`), and the
admin (user 1) presses `approve_7`.  The claim says the ledger then holds one
entry with status paid, total 120 and delivery address "Main St 1", and
user 7's cart is empty.  In the code the ledger stays empty, user 7's cart
still holds both items and the draft is still present, because the approval
handler reads the admin's own (fresh) session.  Moreover, even when the order
*is* found (an approval invoked with the target's own session, last
conjunct), the appended entry carries only user_id/user_name/cart/total/status
- the stored delivery address is never copied into it, and a `LedgerEntry`
has no delivery-address field at all. -/
theorem happy_path_approval_appends_nothing :
    (approve_payment happyS6 1 7).1.orders = [] ∧
    cartItems (approve_payment happyS6 1 7).1 7 = [appleP, bananaP] ∧
    ((approve_payment happyS6 1 7).1.sessions 7).current_order ≠ none ∧
    (approve_payment happyS6 7 7).2.1 =
      some { user_id := 7, user_name := "Customer", cart := [appleP, bananaP],
             total := 120, status := "paid" } := by
  decide

/-- C3.  The claim says checkout snapshots the cart into the draft, so later
cart mutations leave the draft's item list unchanged.  In the code
`current_order['cart']` is the *same list object* as the session cart:
starting from the start state, user 7 adds an apple and checks out (draft
items `[appleP]`), and a subsequent `add_to_cart` of a banana grows the
draft's item list to `[appleP, bananaP]`; a subsequent `remove_from_cart 0`
likewise empties it down to `[bananaP]`. -/
theorem draft_items_mutate_with_cart_after_checkout :
    (let s1 := (add_to_cart initState 7 "apple").1
     let s2 := (checkout_order s1 7 "Customer").1
     let s3 := (add_to_cart s2 7 "banana").1
     let s4 := (remove_from_cart s3 7 0).1
     draftItems s2 7 = [appleP] ∧
     draftItems s3 7 = [appleP, bananaP] ∧
     draftItems s4 7 = [bananaP]) := by
  decide

/-- C4.  The claim says every admin action - product add/remove, order
listing, payment approval - is rejected with a permission error for any
non-admin caller, with no state change.  The three `admin_only`-wrapped
commands do behave that way (first five conjuncts, non-admin 99 with admin id
"1"), but `approve_payment` performs no admin check whatsoever: when user 99
invokes `approve_99` on `c4State`, the handler runs to completion, appends
user 99's own pending order to the ledger as paid and clears the session,
instead of failing with a permission error. -/
theorem non_admin_approval_executes :
    (add_product_cmd (some "1") c4State 99 ["x", "10"]).2 = Reply.permissionDenied ∧
    (add_product_cmd (some "1") c4State 99 ["x", "10"]).1.products = c4State.products ∧
    (remove_product_cmd (some "1") c4State 99 ["apple"]).2 = Reply.permissionDenied ∧
    (remove_product_cmd (some "1") c4State 99 ["apple"]).1.products = c4State.products ∧
    (list_orders (some "1") c4State 99).2 = Reply.permissionDenied ∧
    (approve_payment c4State 99 99).2.1 ≠ none ∧
    (approve_payment c4State 99 99).1.orders =
      [{ user_id := 99, user_name := "Mallory", cart := [appleP], total := 50, status := "paid" }] ∧
    ((approve_payment c4State 99 99).1.sessions 99).current_order = none := by
  decide

/-- C5.  Checkout (both the `/checkout` command and the `checkout_order`
button) on an empty cart reports "cart empty", produces no draft and changes
no state at all; on a non-empty cart it stores a draft with status `pending`
whose total is the sum of the cart items' prices. -/
theorem checkout_empty_cart_fails_nonempty_pending (s : BotState) (uid : Int)
    (uname : String) :
    (cartItems s uid = [] →
        checkout s uid uname = (s, Reply.cartEmpty) ∧
        checkout_order s uid uname = (s, Reply.cartEmpty)) ∧
    (cartItems s uid ≠ [] →
        ∃ ord : Order,
          ((checkout s uid uname).1.sessions uid).current_order = some ord ∧
          ((checkout_order s uid uname).1.sessions uid).current_order = some ord ∧
          ord.status = "pending" ∧
          ord.total = ((cartItems s uid).map (fun p => p.price)).sum) := by
  constructor
  · intro h
    exact ⟨checkout_of_empty s uid uname h, checkout_order_of_empty s uid uname h⟩
  · intro h
    obtain ⟨r, hr, hord⟩ := checkout_of_ne_nil s uid uname h
    obtain ⟨r2, hr2, _, _, _, _, _, _, _, _, hord2, _⟩ := checkout_order_of_ne_nil s uid uname h
    rw [hr] at hr2
    cases hr2
    exact ⟨Order.mk uid uname r (((cartItems s uid).map (fun p => p.price)).sum) "pending",
           hord, hord2, rfl, rfl⟩

/-- Witness for C5 at concrete inputs: checkout from the fresh start state
(empty cart) changes nothing, and checkout on `c7State` (user 7 holds apple
and banana) yields a pending draft with total 120. -/
theorem checkout_empty_cart_fails_nonempty_pending_witness :
    (checkout initState 7 "Customer" = (initState, Reply.cartEmpty) ∧
     checkout_order initState 7 "Customer" = (initState, Reply.cartEmpty)) ∧
    (∃ ord : Order,
        ((checkout c7State 7 "Customer").1.sessions 7).current_order = some ord ∧
        ((checkout_order c7State 7 "Customer").1.sessions 7).current_order = some ord ∧
        ord.status = "pending" ∧
        ord.total = ((cartItems c7State 7).map (fun p => p.price)).sum) :=
  ⟨(checkout_empty_cart_fails_nonempty_pending initState 7 "Customer").1 (by decide),
   (checkout_empty_cart_fails_nonempty_pending c7State 7 "Customer").2 (by decide)⟩

/-- C6.  A draft's total is frozen at checkout time: for any user whose cart
is non-empty, after `checkout_order` creates the draft, running
`/add_product` (with any caller, admin id configuration and arguments -
including one that overwrites an existing product with a new price) leaves
the draft in the session with status `pending` and its `total` field still
equal to the sum of the item prices at draft-creation time.  The total is a
stored snapshot, never recomputed from the catalog. -/
theorem draft_total_frozen_under_catalog_change (s : BotState) (uid : Int) (uname : String)
    (adminId : Option String) (caller : Int) (args : List String)
    (h : cartItems s uid ≠ []) :
    ∃ ord : Order,
      (((add_product_cmd adminId (checkout_order s uid uname).1 caller args).1).sessions uid).current_order
        = some ord ∧
      ord.status = "pending" ∧
      ord.total = ((cartItems s uid).map (fun p => p.price)).sum := by
  obtain ⟨r, hr, _, _, _, _, _, _, _, _, hord, _⟩ := checkout_order_of_ne_nil s uid uname h
  have hf := add_product_cmd_frame adminId (checkout_order s uid uname).1 caller args
  exact ⟨Order.mk uid uname r (((cartItems s uid).map (fun p => p.price)).sum) "pending",
         by rw [hf.1]; exact hord, rfl, rfl⟩

/-- C7 (amended).  `remove_from_cart` with an index outside the cart's
0-based range leaves the whole state unchanged and sends no message at all -
in particular no OutOfRange error report (the code silently falls through to
re-rendering the cart); with a valid index it answers naming exactly the
element at that position and removes it, preserving the order of the
remaining items, without touching any other user's session. -/
theorem remove_from_cart_range_checked (s : BotState) (uid : Int) (index : Int) :
    (¬ (0 ≤ index ∧ index < ((cartItems s uid).length : Int)) →
        remove_from_cart s uid index = (s, Reply.silent)) ∧
    (∀ n : Nat, index = (n : Int) → n < (cartItems s uid).length →
        (remove_from_cart s uid index).2
          = Reply.removedItem ((cartItems s uid).getD n (Product.mk "" "" 0)) ∧
        cartItems (remove_from_cart s uid index).1 uid = (cartItems s uid).eraseIdx n ∧
        (∀ u, u ≠ uid → (remove_from_cart s uid index).1.sessions u = s.sessions u)) := by
  rcases hc : (s.sessions uid).cart with _ | r
  · have hci : cartItems s uid = [] := by unfold cartItems; rw [hc]
    constructor
    · intro _
      unfold remove_from_cart
      simp [hc]
    · intro n hn hlen
      rw [hci] at hlen
      simp at hlen
  · have hci : cartItems s uid = heapGet s.heap r := by unfold cartItems; rw [hc]
    constructor
    · intro hout
      rw [hci] at hout
      unfold remove_from_cart
      simp only [hc]
      rw [if_neg]
      exact hout
    · intro n hn hlen
      rw [hci] at hlen
      have hne : heapGet s.heap r ≠ [] := by
        intro hnil
        rw [hnil] at hlen
        simp at hlen
      have hrlt : r < s.heap.length := lt_length_of_heapGet_ne_nil s.heap r hne
      have hin : 0 ≤ index ∧ index < ((heapGet s.heap r).length : Int) := by
        constructor
        · rw [hn]; exact Int.ofNat_nonneg n
        · rw [hn]; exact_mod_cast hlen
      have htn : index.toNat = n := by rw [hn]; simp
      unfold remove_from_cart
      simp only [hc]
      rw [if_pos hin]
      refine ⟨by rw [htn, hci], ?_, ?_⟩
      · unfold cartItems
        simp only [hc, htn, hci]
        exact heapGet_heapSet_self s.heap r _ hrlt
      · intro u hu
        rfl

/-- Witness for C6: user 7 holds apple and banana (`c7State`), checks out,
and the admin overwrites the apple's price with 999; the draft still shows
status `pending` and total 120. -/
theorem draft_total_frozen_under_catalog_change_witness :
    ∃ ord : Order,
      (((add_product_cmd (some "1") (checkout_order c7State 7 "Customer").1 1
          ["apple", "999"]).1).sessions 7).current_order = some ord ∧
      ord.status = "pending" ∧
      ord.total = ((cartItems c7State 7).map (fun p => p.price)).sum :=
  draft_total_frozen_under_catalog_change c7State 7 "Customer" (some "1") 1
    ["apple", "999"] (by decide)

/-- C7 counterexample: `remove_from_cart` with index 5 on user 7's 2-item
cart (`c7State`) does leave the cart unchanged, but it does not fail with an
OutOfRange error - it sends nothing at all, so the claim's "fails with
OutOfRange" is false on the code. -/
theorem remove_out_of_range_is_silent :
    ¬ ((remove_from_cart c7State 7 5).2 = Reply.outOfRangeError) ∧
    (remove_from_cart c7State 7 5).2 = Reply.silent ∧
    cartItems (remove_from_cart c7State 7 5).1 7 = [appleP, bananaP] := by
  decide

/-- Witness for C7 (amended), on user 7's 2-item cart: index 5 is
out of range, so the call returns the state unchanged with no message;
index 1 removes exactly the banana, leaving `[appleP]`. -/
theorem remove_from_cart_range_checked_witness :
    (remove_from_cart c7State 7 5 = (c7State, Reply.silent)) ∧
    ((remove_from_cart c7State 7 1).2
        = Reply.removedItem ((cartItems c7State 7).getD 1 (Product.mk "" "" 0)) ∧
      cartItems (remove_from_cart c7State 7 1).1 7 = (cartItems c7State 7).eraseIdx 1 ∧
      (∀ u, u ≠ (7 : Int) → (remove_from_cart c7State 7 1).1.sessions u = c7State.sessions u)) :=
  ⟨(remove_from_cart_range_checked c7State 7 5).1 (by decide),
   (remove_from_cart_range_checked c7State 7 1).2 1 rfl (by decide)⟩

/-- C8 counterexample: the admin (id "1") runs `/add_product Thing -5` and
`/add_product Thing 0`; both succeed and the non-positive-priced product is
inserted into the catalog - no InvalidInput error is raised for a
non-positive price, so the claim's validation requirement is false on the
code. -/
theorem add_product_accepts_nonpositive_price :
    (add_product_cmd (some "1") initState 1 ["Thing", "-5"]).2 = Reply.productAdded "Thing" ∧
    ¬ ((add_product_cmd (some "1") initState 1 ["Thing", "-5"]).2 = Reply.invalidInput) ∧
    dictGet (add_product_cmd (some "1") initState 1 ["Thing", "-5"]).1.products "thing"
      = some (Product.mk "thing" "Thing" (-5)) ∧
    (add_product_cmd (some "1") initState 1 ["Thing", "0"]).2 = Reply.productAdded "Thing" := by
  decide

/-- C8 (amended).  For the admin, `/add_product <name> <price>` inserts or
overwrites the catalog entry whenever the price argument parses as an
integer, regardless of its sign - non-positive prices are accepted; it fails
(with the usage message, catalog and rest of the state unchanged) only when
the price argument is not an integer (or, per the `IndexError` branch, when
arguments are missing). -/
theorem add_product_no_price_validation (adminId : Option String) (s : BotState)
    (uid : Int) (name priceArg : String) (rest : List String)
    (ha : is_admin adminId uid = true) :
    (∀ p : Int, pyInt priceArg = some p →
        add_product_cmd adminId s uid (name :: priceArg :: rest)
          = ({ s with products := dictSet s.products (pyLower name) (Product.mk (pyLower name) name p) }, Reply.productAdded name)) ∧
    (pyInt priceArg = none →
        add_product_cmd adminId s uid (name :: priceArg :: rest) = (s, Reply.usageError)) := by
  constructor
  · intro p hp
    unfold add_product_cmd
    simp [ha, hp]
  · intro hp
    unfold add_product_cmd
    simp [ha, hp]

/-- C9.  While a session is in the awaiting state (the single state string
that gates address entry), a text message that strips to empty is rejected
with an error and the whole state is unchanged - still awaiting, no address
stored; a text message with non-whitespace content stores its stripped text
as the session's `delivery_address` and resets the workflow state to `None`
(Idle), touching nothing else. -/
theorem handle_message_address_transitions (s : BotState) (uid : Int) (text : String)
    (h : (s.sessions uid).state = some AWAITING_PAYMENT_CONFIRMATION) :
    (pyStrip text = "" → handle_message s uid text = (s, Reply.addressEmptyError)) ∧
    (pyStrip text ≠ "" →
        (handle_message s uid text).2 = Reply.addressSaved ∧
        ((handle_message s uid text).1.sessions uid).delivery_address = some (pyStrip text) ∧
        ((handle_message s uid text).1.sessions uid).state = none ∧
        ((handle_message s uid text).1.sessions uid).cart = (s.sessions uid).cart ∧
        ((handle_message s uid text).1.sessions uid).current_order
          = (s.sessions uid).current_order ∧
        (handle_message s uid text).1.heap = s.heap ∧
        (handle_message s uid text).1.orders = s.orders ∧
        (∀ u, u ≠ uid → (handle_message s uid text).1.sessions u = s.sessions u)) := by
  constructor
  · intro he
    unfold handle_message
    simp [h, he]
  · intro he
    unfold handle_message
    simp [h, he, setSession]
    intro u hu
    simp [hu]

/-- C10.  When `approve_payment` runs while the session it reads (the button
presser's) has no current order, nothing is appended to the ledger, yet the
handler still clears that session's cart (assigning a fresh empty list),
`current_order` and workflow state, and the receipt construction then
subscripts `None` - an unhandled TypeError (receipt result `none`) instead of
a normal completion. -/
theorem approve_payment_without_order (s : BotState) (presser target : Int)
    (h : (s.sessions presser).current_order = none) :
    (approve_payment s presser target).1.orders = s.orders ∧
    (approve_payment s presser target).2.1 = none ∧
    (approve_payment s presser target).2.2 = none ∧
    ((approve_payment s presser target).1.sessions presser).cart = some s.heap.length ∧
    heapGet (approve_payment s presser target).1.heap s.heap.length = [] ∧
    ((approve_payment s presser target).1.sessions presser).current_order = none ∧
    ((approve_payment s presser target).1.sessions presser).state = none := by
  unfold approve_payment
  simp [h, setSession]
  exact heapGet_append_singleton s.heap []

/-- Witness for C8 (amended): the admin adds "Thing" at price -7 (accepted,
catalog updated) and then tries a non-numeric price (usage error, state
unchanged). -/
theorem add_product_no_price_validation_witness :
    (add_product_cmd (some "1") initState 1 ["Thing", "-7"]
      = ({ initState with products := dictSet initState.products (pyLower "Thing") (Product.mk (pyLower "Thing") "Thing" (-7)) }, Reply.productAdded "Thing")) ∧
    (add_product_cmd (some "1") initState 1 ["Thing", "pricey"] = (initState, Reply.usageError)) :=
  ⟨(add_product_no_price_validation (some "1") initState 1 "Thing" "-7" [] (by decide)).1
      (-7) (by decide),
   (add_product_no_price_validation (some "1") initState 1 "Thing" "pricey" [] (by decide)).2
      (by decide)⟩

/-- Witness for C9 on `c1State` (user 42 is awaiting): a whitespace-only
message is rejected with the state unchanged, and "Main St 1" is stored as
the delivery address with the state reset to Idle. -/
theorem handle_message_address_transitions_witness :
    (handle_message c1State 42 "   " = (c1State, Reply.addressEmptyError)) ∧
    ((handle_message c1State 42 "Main St 1").2 = Reply.addressSaved ∧
     ((handle_message c1State 42 "Main St 1").1.sessions 42).delivery_address
       = some (pyStrip "Main St 1") ∧
     ((handle_message c1State 42 "Main St 1").1.sessions 42).state = none ∧
     ((handle_message c1State 42 "Main St 1").1.sessions 42).cart = (c1State.sessions 42).cart ∧
     ((handle_message c1State 42 "Main St 1").1.sessions 42).current_order
       = (c1State.sessions 42).current_order ∧
     (handle_message c1State 42 "Main St 1").1.heap = c1State.heap ∧
     (handle_message c1State 42 "Main St 1").1.orders = c1State.orders ∧
     (∀ u, u ≠ (42 : Int) →
        (handle_message c1State 42 "Main St 1").1.sessions u = c1State.sessions u)) :=
  ⟨(handle_message_address_transitions c1State 42 "   " (by decide)).1 (by decide),
   (handle_message_address_transitions c1State 42 "Main St 1" (by decide)).2 (by decide)⟩

/-- Witness for C10: user 5 (fresh session, no order) triggers the approval
path from the start state; no ledger append, session cleared, receipt
construction raises. -/
theorem approve_payment_without_order_witness :
    (approve_payment initState 5 42).1.orders = initState.orders ∧
    (approve_payment initState 5 42).2.1 = none ∧
    (approve_payment initState 5 42).2.2 = none ∧
    ((approve_payment initState 5 42).1.sessions 5).cart = some initState.heap.length ∧
    heapGet (approve_payment initState 5 42).1.heap initState.heap.length = [] ∧
    ((approve_payment initState 5 42).1.sessions 5).current_order = none ∧
    ((approve_payment initState 5 42).1.sessions 5).state = none :=
  approve_payment_without_order initState 5 42 (by decide)
